import Mathlib

/-!
Shallow embedding of the numerical core of the `armory` vault-monitoring
repository (files `vault.py`, `strategy.py`, `main.py`).

Python `float` values are modelled as exact rationals (`ℚ`); Python's
arbitrary-precision `int` is modelled by `ℤ` (or `ℕ` for parsed hex words,
which are non-negative by construction).  Python functions returning an
error dict / raising an exception are modelled with `Except`.

The repository imports `calculate_rates` and `calculate_yield_with_LTV`
from a `utils` module whose source is not part of the available files;
those two functions are modelled from the spec and marked as such.
-/

set_option maxRecDepth 8000

namespace Armory

/-! ### Constants (vault.py lines 19-21) -/

def SECONDS_PER_YEAR : ℕ := 31536000

def SPY_SCALE : ℕ := 10 ^ 27

def UINT32_MAX : ℕ := 4294967295

/-! ### to_apy (vault.py lines 79-83) -/

/-- Function `to_apy` from vault.py: `r_decimal = rate_per_sec / SPY_SCALE`;
return `0.0` if `r_decimal == 0`, else `(1 + r_decimal) ** SECONDS_PER_YEAR - 1`.
Floats are modelled as exact rationals. -/
def to_apy (rate_per_sec : ℤ) : ℚ :=
  let r_decimal : ℚ := (rate_per_sec : ℚ) / (SPY_SCALE : ℚ)
  if r_decimal = 0 then 0
  else (1 + r_decimal) ^ SECONDS_PER_YEAR - 1

/-! ### Hex decoding (vault.py lines 86-110) -/

/-- Value of a single hexadecimal digit, `none` on a non-hex character
(Python `int(s, 16)` raises `ValueError` on such input). -/
def hexDigitVal? (c : Char) : Option ℕ :=
  if '0' ≤ c ∧ c ≤ '9' then some (c.toNat - '0'.toNat)
  else if 'a' ≤ c ∧ c ≤ 'f' then some (c.toNat - 'a'.toNat + 10)
  else if 'A' ≤ c ∧ c ≤ 'F' then some (c.toNat - 'A'.toNat + 10)
  else none

/-- Big-endian parse of a run of hex digits, failing on a non-hex character:
models Python `int(s, 16)` on digit-only input. -/
def parseHexWord? (cs : List Char) : Option ℕ :=
  cs.foldlM (fun a c => (hexDigitVal? c).map (fun d => 16 * a + d)) 0

/-- The big-endian numeric value of a list of hex digits (total function,
used to state what `parseHexWord?` returns on all-hex input). -/
def hexWordVal (cs : List Char) : ℕ :=
  cs.foldl (fun a c => 16 * a + (hexDigitVal? c).getD 0) 0

/-- Strip an optional leading `0x` (vault.py lines 87-88,
`hex_str.startswith("0x")` followed by `hex_str[2:]`); the prefix test is
expressed on the character list so that it reduces definitionally. -/
def stripHexPfx (s : String) : String :=
  if s.toList.take 2 = ['0', 'x'] then s.drop 2 else s

/-- The `i`-th 64-character slice `hex_str[i*64:(i+1)*64]` (vault.py line 93). -/
def chunk (cs : List Char) (i : ℕ) : List Char :=
  (cs.drop (64 * i)).take 64

inductive DecodeError where
  | insufficientLength
  | invalidHexDigit
deriving DecidableEq

structure RateKnots where
  kinkPercent : ℚ
  baseRateApy : ℚ
  rateAtKink : ℚ
  maximumRate : ℚ
deriving DecidableEq

/-- Function `decode_kink_params` from vault.py lines 86-110.  Python returns an
error dict on short input and raises `ValueError` on a non-hex digit;
both are modelled as `Except.error`.  The raw-coefficient arithmetic is
done in `ℤ` exactly as Python's unbounded signed integers
(`UINT32_MAX - kink_raw` may be negative when `kink_raw > UINT32_MAX`). -/
def decode_kink_params (hex_str : String) : Except DecodeError RateKnots :=
  let s := stripHexPfx hex_str
  if s.length < 64 * 4 then .error .insufficientLength
  else
    let cs := s.toList
    match parseHexWord? (chunk cs 0), parseHexWord? (chunk cs 1),
          parseHexWord? (chunk cs 2), parseHexWord? (chunk cs 3) with
    | some base_rate_raw, some slope1_raw, some slope2_raw, some kink_raw =>
      let r0 : ℤ := base_rate_raw
      let r_kink : ℤ := base_rate_raw + slope1_raw * kink_raw
      let r_100 : ℤ := r_kink + slope2_raw * ((UINT32_MAX : ℤ) - kink_raw)
      let kink_util : ℚ := (kink_raw : ℚ) / (UINT32_MAX : ℚ)
      .ok { kinkPercent := kink_util
            baseRateApy := to_apy r0
            rateAtKink := to_apy r_kink
            maximumRate := to_apy r_100 }
    | _, _, _, _ => .error .invalidHexDigit

/-! ### Vault utilization and rate fields (vault.py lines 130-189) -/

/-- The numeric inputs of the utilization / rate-field block of
`get_vault_info_json` (vault.py lines 130-189), after scaling by vault
decimals: balances, caps and the decoded IRM knots. -/
structure VaultRatesInput where
  totalBorrowed : ℚ
  totalAssets : ℚ
  supplyCap : ℚ
  borrowCap : ℚ
  kinkPercent : ℚ
  baseRateApy : ℚ
  rateAtKink : ℚ
  maximumRate : ℚ
deriving DecidableEq

/-- Field `currentUtilization` (vault.py lines 165-167): `totalBorrowed / totalAssets`
guarded by `totalAssets > 0`, else `0.0`. -/
def current_utilization (v : VaultRatesInput) : ℚ :=
  if v.totalAssets > 0 then v.totalBorrowed / v.totalAssets else 0

/-- Field `utilizationAtCaps` (vault.py lines 169-171): `borrowCap / supplyCap`
guarded by `supplyCap > 0`, else `0.0`. -/
def utilization_at_caps (v : VaultRatesInput) : ℚ :=
  if v.supplyCap > 0 then v.borrowCap / v.supplyCap else 0

/-- Modelled from the spec: `calculate_rates` is imported from `utils`,
whose source file is not among the available sources.  Spec §4.3: borrow
APY is piecewise-linear through the knots `(0, baseRateApy)`,
`(kinkPercent, rateAtKink)`, `(1, maximumRate)`; the degenerate
`kinkPercent = 0` width-zero first segment still maps utilization 0 to
`baseRateApy`, and `kinkPercent = 1` maps utilization 1 to `maximumRate`;
supply APY is the borrow APY scaled by utilization:
`supplyApy = borrowApy * utilization`.  Returns
`(borrowApy, supplyApy)` as the tuple unpacked at vault.py lines 183-187. -/
def calculate_rates (utilization kink base rate_at_kink max_rate : ℚ) : ℚ × ℚ :=
  let borrow :=
    if utilization ≤ kink then
      if kink = 0 then base
      else base + (rate_at_kink - base) * (utilization / kink)
    else
      if kink = 1 then max_rate
      else rate_at_kink + (max_rate - rate_at_kink) * ((utilization - kink) / (1 - kink))
  (borrow, borrow * utilization)

/-- The `(currentBorrowApy, currentSupplyApy)` pair computed at
vault.py line 183. -/
def vault_current_rates (v : VaultRatesInput) : ℚ × ℚ :=
  calculate_rates (current_utilization v) v.kinkPercent v.baseRateApy v.rateAtKink v.maximumRate

/-- The `(capsBorrowApy, capsSupplyApy)` pair computed at vault.py line 187. -/
def vault_caps_rates (v : VaultRatesInput) : ℚ × ℚ :=
  calculate_rates (utilization_at_caps v) v.kinkPercent v.baseRateApy v.rateAtKink v.maximumRate

/-! ### Leveraged yield (spec §4.4; `utils.calculate_yield_with_LTV`) -/

inductive YieldError where
  | invalidLTV
deriving DecidableEq

/-- Modelled from the spec: `calculate_yield_with_LTV` is imported from
`utils`, whose source file is not among the available sources.  Spec §4.4:
`yieldWithLTV(gainApy, costApy, ltv)` fails with `InvalidLTV` for
`ltv ≥ 1` (both `ltv == 1` and `ltv > 1`) rather than producing a
non-finite value or clamping, and otherwise returns
`gainApy + (ltv / (1 - ltv)) * (gainApy - costApy)`. -/
def calculate_yield_with_LTV (gain cost ltv : ℚ) : Except YieldError ℚ :=
  if 1 ≤ ltv then .error .invalidLTV
  else .ok (gain + (ltv / (1 - ltv)) * (gain - cost))

/-! ### Collateral table filtering (vault.py lines 191-205) -/

/-- A raw entry of `collateralLTVInfo` as fetched on-chain: LTVs are
integers scaled by 10000 (basis points). -/
structure RawLTVItem where
  collateral : String
  borrowLTV : ℤ
  liquidationLTV : ℤ
deriving DecidableEq

/-- A filtered collateral edge as stored on the vault
(`filtered["collateralLTVInfo"]`, vault.py lines 199-205): LTVs divided
by 10000, entries with `borrowLTV == 0` dropped. -/
structure CollateralEdge where
  collateral : String
  borrowLTV : ℚ
  liquidationLTV : ℚ
deriving DecidableEq

/-- The loop at vault.py lines 191-205: divide `borrowLTV` by 10000, skip
the entry when the result is 0, and keep `liquidationLTV / 10000`. -/
def filter_collateral_ltv (raw : List RawLTVItem) : List CollateralEdge :=
  raw.filterMap fun item =>
    if (item.borrowLTV : ℚ) / 10000 = 0 then none
    else some { collateral := item.collateral
                borrowLTV := (item.borrowLTV : ℚ) / 10000
                liquidationLTV := (item.liquidationLTV : ℚ) / 10000 }

/-! ### Vault state and strategy construction (strategy.py, main.py) -/

/-- The fields of the `Vault` dataclass (vault.py lines 258-295) that the
strategy pipeline reads. -/
structure VaultState where
  vault_address : String
  vault : Option String
  vault_symbol : Option String
  asset_symbol : Option String
  collateral_ltv_info : List CollateralEdge
  current_supply_apy : ℚ
  current_borrow_apy : ℚ
  caps_supply_apy : ℚ
  caps_borrow_apy : ℚ
  nativeYield : ℚ
deriving DecidableEq

/-- Python's `a or b` for optional strings: `b` when `a` is `None` or
empty (falsy), else the string in `a`. -/
def pyOr (a : Option String) (b : String) : String :=
  match a with
  | some s => if s = "" then b else s
  | none => b

/-- A strategy candidate dict as built by `construct_strategies`
(strategy.py lines 60-67). -/
structure StrategyCandidate where
  debtAsset : String
  collateralAsset : String
  borrowLTV : ℚ
  liquidationLTV : ℚ
deriving DecidableEq

/-- Function `construct_strategies` (strategy.py lines 45-69): for each vault in the
mapping, emit one candidate per entry of its collateral table, using
`vault_obj.vault or vault_key` as the debt key.  The Python dict is
modelled as an association list (first binding wins on lookup); the
runtime `isinstance` guards are vacuous in the typed model. -/
def construct_strategies (m : List (String × VaultState)) : List StrategyCandidate :=
  (m.map fun p =>
    p.2.collateral_ltv_info.map fun e =>
      { debtAsset := pyOr p.2.vault p.1
        collateralAsset := e.collateral
        borrowLTV := e.borrowLTV
        liquidationLTV := e.liquidationLTV }).flatten

/-- The `Strategy` dataclass (strategy.py lines 7-18). -/
structure Strategy where
  debtVault : VaultState
  collateralVault : VaultState
  borrowLTV : ℚ
  liquidationLTV : ℚ
  strategy_name : String
deriving DecidableEq

/-- The display-symbol fallback chain of `Strategy.__post_init__`
(strategy.py lines 16-17): asset symbol, else vault symbol, else the raw
vault address. -/
def symbolOf (v : VaultState) : String :=
  pyOr v.asset_symbol (pyOr v.vault_symbol v.vault_address)

/-- Construction `Strategy(...)` including `__post_init__`'s
`strategy_name` (strategy.py lines 15-18). -/
def mkStrategy (dv cv : VaultState) (bl ll : ℚ) : Strategy :=
  { debtVault := dv
    collateralVault := cv
    borrowLTV := bl
    liquidationLTV := ll
    strategy_name := symbolOf dv ++ " → " ++ symbolOf cv }

/-- Lookup `vault_object_map_by_vault.get(key)` on the association-list model. -/
def lookupVault (m : List (String × VaultState)) (k : String) : Option VaultState :=
  (m.find? fun p => p.1 = k).map (·.2)

/-- The strategy-row construction loop of `render` (main.py lines 511-526):
for each candidate from `construct_strategies`, look up the debt and
collateral vaults in the mapping, skip the candidate when either lookup
fails, else build a `Strategy` object.  (`float(s.get("borrowLTV") or 0.0)`
is the identity on the rational LTV carried by the typed candidate.) -/
def render_strategies (m : List (String × VaultState)) : List Strategy :=
  (construct_strategies m).filterMap fun s =>
    match lookupVault m s.debtAsset, lookupVault m s.collateralAsset with
    | some dv, some cv => some (mkStrategy dv cv s.borrowLTV s.liquidationLTV)
    | _, _ => none

/-- Modelled from the spec (§4.5 `buildStrategies`), for comparison with
the code path `construct_strategies` + `render`: for every debt vault,
for each collateral edge with `borrowLTV > 0`, and only when both the
debt key and the collateral key resolve in the mapping, emit a `Strategy`
carrying both vault references and the pair's LTVs. -/
def buildStrategies_from_spec (m : List (String × VaultState)) : List Strategy :=
  (m.map fun p =>
    p.2.collateral_ltv_info.filterMap fun e =>
      if (0 : ℚ) < e.borrowLTV then
        match lookupVault m (pyOr p.2.vault p.1), lookupVault m e.collateral with
        | some dv, some cv => some (mkStrategy dv cv e.borrowLTV e.liquidationLTV)
        | _, _ => none
      else none).flatten

/-- Method `Strategy.calculate_current_yield` (strategy.py lines 20-25):
gain is the collateral vault's current supply APY plus its native yield,
cost is the debt vault's current borrow APY, LTV is `borrowLTV`. -/
def calculate_current_yield (st : Strategy) : Except YieldError ℚ :=
  let gain := st.collateralVault.current_supply_apy + st.collateralVault.nativeYield
  let cost := st.debtVault.current_borrow_apy
  calculate_yield_with_LTV gain cost st.borrowLTV

/-- Method `Strategy.calculate_caps_yield` (strategy.py lines 27-32):
gain is the collateral vault's caps supply APY plus its native yield,
cost is the debt vault's caps borrow APY, LTV is `liquidationLTV`. -/
def calculate_caps_yield (st : Strategy) : Except YieldError ℚ :=
  let gain := st.collateralVault.caps_supply_apy + st.collateralVault.nativeYield
  let cost := st.debtVault.caps_borrow_apy
  calculate_yield_with_LTV gain cost st.liquidationLTV

/-- The `i`-th 64-hex-character word of the hex blob `s` after stripping an
optional `0x` prefix, read as a big-endian unsigned integer. -/
def rawWord (s : String) (i : ℕ) : ℕ :=
  hexWordVal (chunk (stripHexPfx s).toList i)

/-- A concrete vault used to instantiate the strategy-pipeline theorems:
its collateral table (produced by the vault.py filter) references a
collateral key `"B"` that is absent from the sample mapping. -/
def sampleVaultA : VaultState :=
  { vault_address := "0xaaaa"
    vault := some "A"
    vault_symbol := some "eUSDC"
    asset_symbol := some "USDC"
    collateral_ltv_info := filter_collateral_ltv [⟨"B", 5000, 6000⟩]
    current_supply_apy := 3/100
    current_borrow_apy := 5/100
    caps_supply_apy := 4/100
    caps_borrow_apy := 6/100
    nativeYield := 1/100 }

/-! ## Theorems -/

theorem parseHexWord?_go (cs : List Char) :
    ∀ a : ℕ, (∀ c ∈ cs, (hexDigitVal? c).isSome = true) →
      cs.foldlM (fun a c => (hexDigitVal? c).map (fun d => 16 * a + d)) a
        = some (cs.foldl (fun a c => 16 * a + (hexDigitVal? c).getD 0) a) := by
  induction cs with
  | nil => intro a _; rfl
  | cons c cs ih =>
    intro a h
    obtain ⟨d, hd⟩ := Option.isSome_iff_exists.mp (h c (List.mem_cons_self c cs))
    have htail : ∀ x ∈ cs, (hexDigitVal? x).isSome = true :=
      fun x hx => h x (List.mem_cons_of_mem c hx)
    simp only [List.foldlM_cons, List.foldl_cons, hd, Option.map_some', Option.bind_eq_bind,
      Option.some_bind, Option.getD_some]
    exact ih (16 * a + d) htail

theorem parseHexWord?_eq_some (cs : List Char)
    (h : ∀ c ∈ cs, (hexDigitVal? c).isSome = true) :
    parseHexWord? cs = some (hexWordVal cs) :=
  parseHexWord?_go cs 0 h

theorem mem_take_of_mem_chunk (cs : List Char) (i : ℕ) (hi : 64 * i + 64 ≤ 256)
    (c : Char) (hc : c ∈ chunk cs i) : c ∈ cs.take 256 := by
  have h1 : chunk cs i = (cs.take (64 * i + 64)).drop (64 * i) := by
    rw [chunk, List.drop_take]
    congr 1
    omega
  rw [h1] at hc
  have h2 : c ∈ cs.take (64 * i + 64) := List.mem_of_mem_drop hc
  have h3 : cs.take (64 * i + 64) = (cs.take 256).take (64 * i + 64) := by
    rw [List.take_take, min_eq_left hi]
  rw [h3] at h2
  exact List.take_subset _ _ h2

theorem chunk_take_256 (cs : List Char) (i : ℕ) (hi : 64 * i + 64 ≤ 256) :
    chunk (cs.take 256) i = chunk cs i := by
  rw [chunk, chunk, List.drop_take, List.take_take]
  congr 1
  omega

/-- The main decoder characterization: on input whose first 256 stripped
characters are hex digits and whose stripped length is at least 256,
`decode_kink_params` succeeds and returns exactly the knots computed from
the first four big-endian words. -/
theorem decode_kink_params_eq_ok (s : String)
    (hlen : 64 * 4 ≤ (stripHexPfx s).length)
    (hhex : ∀ c ∈ (stripHexPfx s).toList.take 256, (hexDigitVal? c).isSome = true) :
    decode_kink_params s = .ok
      { kinkPercent := (rawWord s 3 : ℚ) / (UINT32_MAX : ℚ)
        baseRateApy := to_apy (rawWord s 0)
        rateAtKink := to_apy ((rawWord s 0 : ℤ) + (rawWord s 1 : ℤ) * (rawWord s 3 : ℤ))
        maximumRate := to_apy ((rawWord s 0 : ℤ) + (rawWord s 1 : ℤ) * (rawWord s 3 : ℤ)
          + (rawWord s 2 : ℤ) * ((UINT32_MAX : ℤ) - (rawWord s 3 : ℤ))) } := by
  have hp : ∀ i : ℕ, 64 * i + 64 ≤ 256 →
      parseHexWord? (chunk (stripHexPfx s).toList i)
        = some (hexWordVal (chunk (stripHexPfx s).toList i)) := by
    intro i hi
    exact parseHexWord?_eq_some _
      (fun c hc => hhex c (mem_take_of_mem_chunk _ i hi c hc))
  have h0 := hp 0 (by omega)
  have h1 := hp 1 (by omega)
  have h2 := hp 2 (by omega)
  have h3 := hp 3 (by omega)
  rw [decode_kink_params]
  rw [if_neg (by omega)]
  simp only [h0, h1, h2, h3]
  rfl

/-- C1: for every hex string that, after stripping an optional `0x` prefix,
has at least 256 hex characters, `decode_kink_params` parses the first four
consecutive 64-hex-character big-endian unsigned integers
`baseRateRaw, slope1Raw, slope2Raw, kinkRaw` and returns knots with
`kinkPercent = kinkRaw / UINT32_MAX`, `baseRateApy = toApy baseRateRaw`,
`rateAtKink = toApy (baseRateRaw + slope1Raw * kinkRaw)` and
`maximumRate = toApy (rKink + slope2Raw * (UINT32_MAX - kinkRaw))`, the
raw-coefficient arithmetic being exact (unbounded) integer arithmetic. -/
theorem decode_kink_params_parses_four_words (s : String)
    (hlen : 64 * 4 ≤ (stripHexPfx s).length)
    (hhex : ∀ c ∈ (stripHexPfx s).toList, (hexDigitVal? c).isSome = true) :
    decode_kink_params s = .ok
      { kinkPercent := (rawWord s 3 : ℚ) / (UINT32_MAX : ℚ)
        baseRateApy := to_apy (rawWord s 0)
        rateAtKink := to_apy ((rawWord s 0 : ℤ) + (rawWord s 1 : ℤ) * (rawWord s 3 : ℤ))
        maximumRate := to_apy ((rawWord s 0 : ℤ) + (rawWord s 1 : ℤ) * (rawWord s 3 : ℤ)
          + (rawWord s 2 : ℤ) * ((UINT32_MAX : ℤ) - (rawWord s 3 : ℤ))) } :=
  decode_kink_params_eq_ok s hlen (fun c hc => hhex c (List.take_subset _ _ hc))

theorem decode_kink_params_parses_four_words_witness :
    (64 * 4 ≤ (stripHexPfx (String.mk (List.replicate 256 '0'))).length ∧
     ∀ c ∈ (stripHexPfx (String.mk (List.replicate 256 '0'))).toList,
       (hexDigitVal? c).isSome = true) ∧
    decode_kink_params (String.mk (List.replicate 256 '0')) = .ok
      { kinkPercent := (rawWord (String.mk (List.replicate 256 '0')) 3 : ℚ) / (UINT32_MAX : ℚ)
        baseRateApy := to_apy (rawWord (String.mk (List.replicate 256 '0')) 0)
        rateAtKink := to_apy ((rawWord (String.mk (List.replicate 256 '0')) 0 : ℤ)
          + (rawWord (String.mk (List.replicate 256 '0')) 1 : ℤ)
            * (rawWord (String.mk (List.replicate 256 '0')) 3 : ℤ))
        maximumRate := to_apy ((rawWord (String.mk (List.replicate 256 '0')) 0 : ℤ)
          + (rawWord (String.mk (List.replicate 256 '0')) 1 : ℤ)
            * (rawWord (String.mk (List.replicate 256 '0')) 3 : ℤ)
          + (rawWord (String.mk (List.replicate 256 '0')) 2 : ℤ)
            * ((UINT32_MAX : ℤ) - (rawWord (String.mk (List.replicate 256 '0')) 3 : ℤ))) } :=
  ⟨⟨by decide, by decide⟩,
   decode_kink_params_parses_four_words (String.mk (List.replicate 256 '0'))
     (by decide) (by decide)⟩

/-- C2: for every input string that, after stripping an optional `0x`
prefix, has fewer than 256 hex characters, `decode_kink_params` fails with
the insufficient-length error and returns no partial knots (the error
constructor carries no `RateKnots`). -/
theorem decode_kink_params_short_input_error (s : String)
    (h : (stripHexPfx s).length < 64 * 4) :
    decode_kink_params s = .error .insufficientLength := by
  rw [decode_kink_params, if_pos h]

theorem decode_kink_params_short_input_error_witness :
    (stripHexPfx "0xff").length < 64 * 4 ∧
    decode_kink_params "0xff" = .error .insufficientLength :=
  ⟨by decide, decode_kink_params_short_input_error "0xff" (by decide)⟩

/-- C3: for every non-negative integer `ratePerSec`, `to_apy` returns
exactly `0` when `ratePerSec / SPY_SCALE` is zero (equivalently, when
`ratePerSec = 0`), and otherwise returns
`(1 + ratePerSec / SPY_SCALE) ^ SECONDS_PER_YEAR - 1`, computed here in
exact rational arithmetic (at least double precision). -/
theorem to_apy_zero_and_compound_formula (r : ℤ) (hr : 0 ≤ r) :
    ((r : ℚ) / (SPY_SCALE : ℚ) = 0 → to_apy r = 0) ∧
    ((r : ℚ) / (SPY_SCALE : ℚ) ≠ 0 →
      to_apy r = (1 + (r : ℚ) / (SPY_SCALE : ℚ)) ^ SECONDS_PER_YEAR - 1) ∧
    (r = 0 → to_apy r = 0) ∧
    (r ≠ 0 → to_apy r = (1 + (r : ℚ) / (SPY_SCALE : ℚ)) ^ SECONDS_PER_YEAR - 1) := by
  have hS : (SPY_SCALE : ℚ) ≠ 0 := by norm_num [SPY_SCALE]
  refine ⟨fun h0 => ?_, fun h0 => ?_, fun h0 => ?_, fun h0 => ?_⟩
  · simp [to_apy, h0]
  · rw [to_apy]
    simp only [if_neg h0]
  · subst h0
    simp [to_apy]
  · have : (r : ℚ) / (SPY_SCALE : ℚ) ≠ 0 :=
      div_ne_zero (Int.cast_ne_zero.mpr h0) hS
    rw [to_apy]
    simp only [if_neg this]

theorem to_apy_zero_and_compound_formula_witness :
    (0 ≤ (0 : ℤ) ∧
      (((0 : ℤ) : ℚ) / (SPY_SCALE : ℚ) = 0 → to_apy 0 = 0)) ∧
    (0 ≤ (2 : ℤ) ∧
      ((2 : ℤ) ≠ 0 →
        to_apy 2 = (1 + ((2 : ℤ) : ℚ) / (SPY_SCALE : ℚ)) ^ SECONDS_PER_YEAR - 1)) :=
  ⟨⟨le_refl 0, (to_apy_zero_and_compound_formula 0 (le_refl 0)).1⟩,
   ⟨by norm_num, (to_apy_zero_and_compound_formula 2 (by norm_num)).2.2.2⟩⟩

/-- C10: any two inputs that both have at least 256 hex characters after
stripping an optional `0x` prefix and agree on those first 256 characters
decode to identical knots: characters beyond the first 256 are ignored
rather than rejected, so the decoder depends only on the first four
64-hex-character words. -/
theorem decode_kink_params_ignores_trailing_chars (s1 s2 : String)
    (hl1 : 64 * 4 ≤ (stripHexPfx s1).length)
    (hl2 : 64 * 4 ≤ (stripHexPfx s2).length)
    (hagree : (stripHexPfx s1).toList.take 256 = (stripHexPfx s2).toList.take 256)
    (hhex : ∀ c ∈ (stripHexPfx s1).toList.take 256, (hexDigitVal? c).isSome = true) :
    ∃ k : RateKnots,
      decode_kink_params s1 = .ok k ∧ decode_kink_params s2 = .ok k := by
  have hword : ∀ i : ℕ, 64 * i + 64 ≤ 256 → rawWord s1 i = rawWord s2 i := by
    intro i hi
    rw [rawWord, rawWord, ← chunk_take_256 (stripHexPfx s1).toList i hi,
      ← chunk_take_256 (stripHexPfx s2).toList i hi, hagree]
  have e1 := decode_kink_params_eq_ok s1 hl1 hhex
  have e2 := decode_kink_params_eq_ok s2 hl2 (by rw [← hagree]; exact hhex)
  refine ⟨_, e1, ?_⟩
  rw [e2, hword 0 (by omega), hword 1 (by omega), hword 2 (by omega),
    hword 3 (by omega)]

theorem decode_kink_params_ignores_trailing_chars_witness :
    (64 * 4 ≤ (stripHexPfx (String.mk (List.replicate 256 'a'))).length ∧
     64 * 4 ≤ (stripHexPfx (String.mk (List.replicate 256 'a' ++ ['f', 'f']))).length ∧
     (stripHexPfx (String.mk (List.replicate 256 'a'))).toList.take 256
       = (stripHexPfx (String.mk (List.replicate 256 'a' ++ ['f', 'f']))).toList.take 256 ∧
     ∀ c ∈ (stripHexPfx (String.mk (List.replicate 256 'a'))).toList.take 256,
       (hexDigitVal? c).isSome = true) ∧
    (∃ k : RateKnots,
      decode_kink_params (String.mk (List.replicate 256 'a')) = .ok k ∧
      decode_kink_params (String.mk (List.replicate 256 'a' ++ ['f', 'f'])) = .ok k) :=
  ⟨⟨by decide, by decide, by decide, by decide⟩,
   decode_kink_params_ignores_trailing_chars
     (String.mk (List.replicate 256 'a'))
     (String.mk (List.replicate 256 'a' ++ ['f', 'f']))
     (by decide) (by decide) (by decide) (by decide)⟩

/-- C4: at every utilization, the supply APY returned by rate evaluation
equals the borrow APY multiplied by that utilization, in particular at
the two evaluation points used per vault: `currentUtilization` and
`utilizationAtCaps`. -/
theorem supply_apy_eq_borrow_apy_mul_utilization
    (u kink base rate_at_kink max_rate : ℚ) (v : VaultRatesInput) :
    (calculate_rates u kink base rate_at_kink max_rate).2
      = (calculate_rates u kink base rate_at_kink max_rate).1 * u ∧
    (vault_current_rates v).2 = (vault_current_rates v).1 * current_utilization v ∧
    (vault_caps_rates v).2 = (vault_caps_rates v).1 * utilization_at_caps v :=
  ⟨rfl, rfl, rfl⟩

/-- C5: for every `gainApy`, `costApy` and `ltv` in `[0, 1)`, the
leveraged-yield function returns exactly
`gainApy + (ltv / (1 - ltv)) * (gainApy - costApy)`; in particular at
`ltv = 0` it returns `gainApy`. -/
theorem yield_with_ltv_formula (g c ltv : ℚ) (_h0 : 0 ≤ ltv) (h1 : ltv < 1) :
    calculate_yield_with_LTV g c ltv = .ok (g + (ltv / (1 - ltv)) * (g - c)) ∧
    calculate_yield_with_LTV g c 0 = .ok g := by
  constructor
  · rw [calculate_yield_with_LTV, if_neg (not_le.mpr h1)]
  · rw [calculate_yield_with_LTV, if_neg (by norm_num : ¬(1 : ℚ) ≤ 0)]
    norm_num

theorem yield_with_ltv_formula_witness :
    ((0 : ℚ) ≤ 1 / 2 ∧ (1 : ℚ) / 2 < 1) ∧
    (calculate_yield_with_LTV 1 2 (1 / 2)
        = .ok (1 + ((1 / 2) / (1 - 1 / 2)) * (1 - 2)) ∧
     calculate_yield_with_LTV 1 2 0 = .ok 1) :=
  ⟨⟨by norm_num, by norm_num⟩,
   yield_with_ltv_formula 1 2 (1 / 2) (by norm_num) (by norm_num)⟩

/-- C6: for every `gainApy`, `costApy` and every `ltv ≥ 1` (both `ltv = 1`
and `ltv > 1`), the leveraged-yield function fails with the invalid-LTV
error instead of returning any value: it neither produces a non-finite
result nor silently clamps the LTV. -/
theorem yield_with_ltv_invalid (g c ltv : ℚ) (h : 1 ≤ ltv) :
    calculate_yield_with_LTV g c ltv = .error .invalidLTV := by
  rw [calculate_yield_with_LTV, if_pos h]

theorem yield_with_ltv_invalid_witness :
    ((1 : ℚ) ≤ 1 ∧ calculate_yield_with_LTV 3 4 1 = .error .invalidLTV) ∧
    ((1 : ℚ) ≤ 2 ∧ calculate_yield_with_LTV 3 4 2 = .error .invalidLTV) :=
  ⟨⟨le_refl 1, yield_with_ltv_invalid 3 4 1 (le_refl 1)⟩,
   ⟨by norm_num, yield_with_ltv_invalid 3 4 2 (by norm_num)⟩⟩

/-- C7: for every vault snapshot with non-negative balances and caps,
`currentUtilization` is `totalBorrowed / totalAssets` when
`totalAssets > 0` and `0` when `totalAssets = 0`, and `utilizationAtCaps`
is `borrowCap / supplyCap` when `supplyCap > 0` and `0` when
`supplyCap = 0`; both are total functions, so neither computation can
fault on division by zero. -/
theorem utilization_division_guards (v : VaultRatesInput)
    (_hb : 0 ≤ v.totalBorrowed) (_ha : 0 ≤ v.totalAssets)
    (_hs : 0 ≤ v.supplyCap) (_hc : 0 ≤ v.borrowCap) :
    (0 < v.totalAssets → current_utilization v = v.totalBorrowed / v.totalAssets) ∧
    (v.totalAssets = 0 → current_utilization v = 0) ∧
    (0 < v.supplyCap → utilization_at_caps v = v.borrowCap / v.supplyCap) ∧
    (v.supplyCap = 0 → utilization_at_caps v = 0) := by
  refine ⟨fun h => ?_, fun h => ?_, fun h => ?_, fun h => ?_⟩ <;>
    simp [current_utilization, utilization_at_caps, h]

theorem utilization_division_guards_witness :
    ((0 : ℚ) ≤ 3 ∧ (0 : ℚ) ≤ 0 ∧ (0 : ℚ) ≤ 0 ∧ (0 : ℚ) ≤ 7) ∧
    ((0 < (VaultRatesInput.mk 3 0 0 7 0 0 0 0).totalAssets →
        current_utilization (VaultRatesInput.mk 3 0 0 7 0 0 0 0)
          = (VaultRatesInput.mk 3 0 0 7 0 0 0 0).totalBorrowed
              / (VaultRatesInput.mk 3 0 0 7 0 0 0 0).totalAssets) ∧
     ((VaultRatesInput.mk 3 0 0 7 0 0 0 0).totalAssets = 0 →
        current_utilization (VaultRatesInput.mk 3 0 0 7 0 0 0 0) = 0) ∧
     (0 < (VaultRatesInput.mk 3 0 0 7 0 0 0 0).supplyCap →
        utilization_at_caps (VaultRatesInput.mk 3 0 0 7 0 0 0 0)
          = (VaultRatesInput.mk 3 0 0 7 0 0 0 0).borrowCap
              / (VaultRatesInput.mk 3 0 0 7 0 0 0 0).supplyCap) ∧
     ((VaultRatesInput.mk 3 0 0 7 0 0 0 0).supplyCap = 0 →
        utilization_at_caps (VaultRatesInput.mk 3 0 0 7 0 0 0 0) = 0)) :=
  ⟨⟨by norm_num, le_refl 0, le_refl 0, by norm_num⟩,
   utilization_division_guards (VaultRatesInput.mk 3 0 0 7 0 0 0 0)
     (by norm_num) (le_refl 0) (le_refl 0) (by norm_num)⟩

/-- C9: a strategy's current-scenario yield is the leveraged-yield
function applied to gain = the collateral vault's current supply APY plus
its native yield, cost = the debt vault's current borrow APY, and
ltv = `borrowLTV`; the caps-scenario yield is the same function applied
to gain = the collateral vault's caps supply APY plus its native yield,
cost = the debt vault's caps borrow APY, and ltv = `liquidationLTV`. -/
theorem strategy_yields_use_yield_with_ltv (st : Strategy) :
    calculate_current_yield st
      = calculate_yield_with_LTV
          (st.collateralVault.current_supply_apy + st.collateralVault.nativeYield)
          st.debtVault.current_borrow_apy st.borrowLTV ∧
    calculate_caps_yield st
      = calculate_yield_with_LTV
          (st.collateralVault.caps_supply_apy + st.collateralVault.nativeYield)
          st.debtVault.caps_borrow_apy st.liquidationLTV :=
  ⟨rfl, rfl⟩

theorem borrowLTV_pos_of_filter (raw : List RawLTVItem)
    (hraw : ∀ i ∈ raw, 0 ≤ i.borrowLTV) :
    ∀ e ∈ filter_collateral_ltv raw, (0 : ℚ) < e.borrowLTV := by
  intro e he
  obtain ⟨i, hi, hf⟩ := List.mem_filterMap.mp he
  by_cases h : (i.borrowLTV : ℚ) / 10000 = 0
  · rw [if_pos h] at hf
    exact absurd hf (by simp)
  · rw [if_neg h] at hf
    have h0 : (0 : ℚ) ≤ (i.borrowLTV : ℚ) / 10000 := by
      apply div_nonneg _ (by norm_num)
      exact_mod_cast hraw i hi
    have := Option.some.inj hf
    rw [← this]
    exact lt_of_le_of_ne h0 (Ne.symm h)

/-- C8: for every vault mapping whose collateral tables were produced by
the vault.py collateral filter from non-negative raw LTVs, the composed
strategy pipeline (`construct_strategies` followed by the `render` lookup
loop) emits exactly the spec-side strategies: one per collateral edge with
`borrowLTV > 0` whose debt key and collateral key both resolve in the
mapping.  In particular an edge whose collateral key is absent from the
mapping produces zero strategies and no error. -/
theorem strategies_emitted_only_for_resolvable_edges (m : List (String × VaultState))
    (hprov : ∀ p ∈ m, ∃ raw : List RawLTVItem,
        (∀ i ∈ raw, 0 ≤ i.borrowLTV) ∧
        p.2.collateral_ltv_info = filter_collateral_ltv raw) :
    render_strategies m = buildStrategies_from_spec m := by
  have hpos : ∀ p ∈ m, ∀ e ∈ p.2.collateral_ltv_info, (0 : ℚ) < e.borrowLTV := by
    intro p hp e he
    obtain ⟨raw, hraw, hinfo⟩ := hprov p hp
    rw [hinfo] at he
    exact borrowLTV_pos_of_filter raw hraw e he
  rw [render_strategies, construct_strategies, buildStrategies_from_spec,
    List.filterMap_flatten, List.map_map]
  congr 1
  apply List.map_congr_left
  intro p hp
  rw [Function.comp_apply, List.filterMap_map]
  apply List.filterMap_congr
  intro e he
  rw [Function.comp_apply, if_pos (hpos p hp e he)]

theorem strategies_emitted_only_for_resolvable_edges_witness :
    (∀ p ∈ [("A", sampleVaultA)], ∃ raw : List RawLTVItem,
        (∀ i ∈ raw, 0 ≤ i.borrowLTV) ∧
        p.2.collateral_ltv_info = filter_collateral_ltv raw) ∧
    render_strategies [("A", sampleVaultA)]
      = buildStrategies_from_spec [("A", sampleVaultA)] := by
  have hprov : ∀ p ∈ [("A", sampleVaultA)], ∃ raw : List RawLTVItem,
      (∀ i ∈ raw, 0 ≤ i.borrowLTV) ∧
      p.2.collateral_ltv_info = filter_collateral_ltv raw := by
    intro p hp
    rw [List.mem_singleton] at hp
    subst hp
    exact ⟨[⟨"B", 5000, 6000⟩], by decide, rfl⟩
  exact ⟨hprov, strategies_emitted_only_for_resolvable_edges _ hprov⟩

end Armory
